import Mathlib

/-!
Verification development for the PASDV credit-appraisal engine
(`python.py`): locale numeric parsers, field extraction with its
cross-field repair pass, the annuity/amortization engine, and the
metrics/composite-score engine.  Python floats are modelled as `ℚ`;
`NaN` sentinels are modelled as `none : Option ℚ`; the external
python-docx `Document` constructor and the `re` pattern engine are
modelled as explicit function parameters.
-/

/-- Numeric value of a list of decimal digit characters, as computed by
Python `int`/`float` on a digit string (most significant digit first). -/
def digitsToNat (cs : List Char) : ℕ :=
  cs.foldl (fun a c => 10 * a + (c.toNat - 48)) 0

/-- `leadsWith pat s` is true when `pat` occurs at the very start of `s`
(the check `str.startswith` used implicitly by `str.replace` scanning). -/
def leadsWith : List Char → List Char → Bool
  | [], _ => true
  | _ :: _, [] => false
  | p :: ps, c :: cs => p == c && leadsWith ps cs

/-- Fuel-indexed worker for `pyReplace`.  The fuel starts at the length of
the subject string, which bounds the number of scanning steps; each step
consumes at least one character, so the fuel never runs out in `pyReplace`. -/
def pyReplaceAux (pat repl : List Char) : ℕ → List Char → List Char
  | 0, s => s
  | _ + 1, [] => []
  | fuel + 1, c :: rest =>
    if !pat.isEmpty && leadsWith pat (c :: rest) then
      repl ++ pyReplaceAux pat repl fuel (List.drop pat.length (c :: rest))
    else
      c :: pyReplaceAux pat repl fuel rest

/-- Python `str.replace`: left-to-right, non-overlapping replacement of
every occurrence of `pat` by `repl`. -/
def pyReplace (pat repl s : List Char) : List Char :=
  pyReplaceAux pat repl s.length s

/-- Python `float` on an unsigned string over the alphabet of digits, `.`
and `-` (the only characters surviving the sanitizing step of
`vnd_to_float`): digits with at most one decimal point and at least one
digit somewhere; anything else raises, modelled as `none`. -/
def pyFloatAbs (t : List Char) : Option ℚ :=
  let ip := t.takeWhile Char.isDigit
  let t2 := t.dropWhile Char.isDigit
  match t2 with
  | [] => if ip.isEmpty then none else some ((digitsToNat ip : ℚ))
  | '.' :: t3 =>
    let fp := t3.takeWhile Char.isDigit
    let t4 := t3.dropWhile Char.isDigit
    if !t4.isEmpty then none
    else if ip.isEmpty && fp.isEmpty then none
    else some ((digitsToNat ip : ℚ) + (digitsToNat fp : ℚ) / 10 ^ fp.length)
  | _ => none

/-- Python `float` on a string over digits, `.` and `-`: an optional
leading minus sign followed by an unsigned decimal number. -/
def pyFloat (s : List Char) : Option ℚ :=
  if s.head? = some '-' then (pyFloatAbs s.tail).map (fun v => -v)
  else pyFloatAbs s

/-- Separator normalization of `vnd_to_float` (python.py lines 66-72):
if both `.` and `,` occur, `.` is a thousands separator and `,` the
decimal mark; if only `,` occurs, it is the decimal mark; otherwise all
`.` are thousands separators. -/
def stripSeparators (cs : List Char) : List Char :=
  if cs.contains ',' && cs.contains '.' then
    pyReplace [','] ['.'] (pyReplace ['.'] [] cs)
  else if cs.contains ',' && !cs.contains '.' then
    pyReplace [','] ['.'] (pyReplace ['.'] [] cs)
  else
    pyReplace ['.'] [] cs

/-- Currency-token stripping of `vnd_to_float` (python.py line 74):
remove the unit tokens and spaces, in the source's order. -/
def stripCurrency (cs : List Char) : List Char :=
  pyReplace [' '] []
    (pyReplace ['₫'] []
      (pyReplace ['v', 'n', 'đ'] []
        (pyReplace ['V', 'N', 'D'] []
          (pyReplace ['đ'] [] cs))))

/-- The full sanitizing pipeline of `vnd_to_float`: separator
normalization, currency stripping, then `re.sub(r"[^\d\.\-]", "", s)`
(drop every character that is not a digit, a dot or a minus; `\d` is
modelled on the decimal digits `0`-`9`). -/
def sanitizeNumeric (cs : List Char) : List Char :=
  (stripCurrency (stripSeparators cs)).filter
    (fun c => c.isDigit || c == '.' || c == '-')

/-- `vnd_to_float` (python.py lines 61-79): parse a Vietnamese-locale
currency string to a number; empty or unparsable input yields `0`
(the `try`/`except` around `float`). -/
def vnd_to_float (s : String) : ℚ :=
  let cs := sanitizeNumeric s.data
  if cs.isEmpty then 0 else (pyFloat cs).getD 0

/-- First match of the pattern `(\d+(?:\.\d+)?)` in a string, already
converted through Python `float` (the capture is digits with an optional
fractional part, so `float` always succeeds on it); `none` when no digit
occurs. -/
def firstNumToken : List Char → Option ℚ
  | [] => none
  | c :: rest =>
    if c.isDigit then
      let ds := (c :: rest).takeWhile Char.isDigit
      let t := (c :: rest).dropWhile Char.isDigit
      match t with
      | '.' :: t2 =>
        let fs := t2.takeWhile Char.isDigit
        if fs.isEmpty then some ((digitsToNat ds : ℚ))
        else some ((digitsToNat ds : ℚ) + (digitsToNat fs : ℚ) / 10 ^ fs.length)
      | _ => some ((digitsToNat ds : ℚ))
    else firstNumToken rest

/-- `percent_to_float` (python.py lines 97-103): normalize `,` to `.`,
then take the first decimal-number token, defaulting to `0`. -/
def percent_to_float (s : String) : ℚ :=
  (firstNumToken (pyReplace [','] ['.'] s.data)).getD 0

/-- Python `round` to the nearest integer with banker's rounding
(round half to even), as used for every currency cell of the schedule
(`round(x, 0)`). -/
def pyRound (x : ℚ) : ℤ :=
  if x - ⌊x⌋ < 1 / 2 then ⌊x⌋
  else if 1 / 2 < x - ⌊x⌋ then ⌊x⌋ + 1
  else if ⌊x⌋ % 2 = 0 then ⌊x⌋ else ⌊x⌋ + 1

/-- Python `round(x, 3)`: banker's rounding at three decimal places,
used for the composite score. -/
def round3 (x : ℚ) : ℚ := (pyRound (x * 1000) : ℚ) / 1000

/-- Python `math.isclose(a, b, rel_tol, abs_tol)`:
`|a - b| <= max(rel_tol * max(|a|, |b|), abs_tol)`. -/
def pyIsClose (a b rel_tol abs_tol : ℚ) : Bool :=
  decide (|a - b| ≤ max (rel_tol * max |a| |b|) abs_tol)

/-- The extracted application record.  Field names and defaults follow
`FIELD_DEFAULTS` (python.py lines 42-59); monetary fields are `ℚ`,
the loan term is an integer number of months. -/
structure LoanApplication where
  ten_khach_hang : String
  cccd : String
  noi_cu_tru : String
  so_dien_thoai : String
  muc_dich_vay : String
  tong_nhu_cau_von : ℚ
  von_doi_ung : ℚ
  so_tien_vay : ℚ
  lai_suat_nam : ℚ
  thoi_gian_vay_thang : ℤ
  ky_han_tra : String
  thu_nhap_thang : ℚ
  gia_tri_tsdb : ℚ
  tong_no_hien_tai : ℚ
  loi_nhuan_rong_nam : ℚ
  tong_von_dau_tu : ℚ
deriving DecidableEq

/-- `FIELD_DEFAULTS` (python.py lines 42-59): the record every
extraction starts from.  Note the non-zero defaults: annual rate 10.0,
term 12 months, repayment period literal "Tháng". -/
def FIELD_DEFAULTS : LoanApplication where
  ten_khach_hang := ""
  cccd := ""
  noi_cu_tru := ""
  so_dien_thoai := ""
  muc_dich_vay := ""
  tong_nhu_cau_von := 0
  von_doi_ung := 0
  so_tien_vay := 0
  lai_suat_nam := 10
  thoi_gian_vay_thang := 12
  ky_han_tra := "Tháng"
  thu_nhap_thang := 0
  gia_tri_tsdb := 0
  tong_no_hien_tai := 0
  loi_nhuan_rong_nam := 0
  tong_von_dau_tu := 0

/-- The first-capture-group results of the `re.search` calls of
`extract_from_docx` (python.py lines 129-228), one field per pattern,
`none` when the pattern does not match.  The Python `re` engine itself
is external machinery; the assignment, fallback and repair logic applied
to its results is modelled faithfully in `assignFields`/`repairPass`.
The loan-term capture is `(\d+)` fed to `int`, so it is carried as `ℕ`. -/
structure MatchResults where
  ten1 : Option String
  ten2 : Option String
  cccd : Option String
  noi_cu_tru : Option String
  sdt : Option String
  muc_dich1 : Option String
  muc_dich2 : Option String
  tnc : Option String
  von_du : Option String
  so_tien_vay : Option String
  thoi_han : Option ℕ
  lai_suat : Option String
  thu_nhap_du_an : Option String
  thu_nhap_luong : Option String
  tong_thu_nhap : Option String
  tsdb1 : Option String
  tsdb2 : Option String
  loi_nhuan : Option String

/-- Match results when no extraction pattern matches anywhere
(for instance on empty normalized text). -/
def MatchResults.noMatch : MatchResults :=
  ⟨none, none, none, none, none, none, none, none, none, none, none, none,
    none, none, none, none, none, none⟩

/-- The per-field assignment logic of `extract_from_docx`
(python.py lines 129-228): start from `FIELD_DEFAULTS`, apply each
rule's first successful pattern, numeric captures through
`vnd_to_float`/`percent_to_float`/`int`, textual captures trimmed;
monthly income falls back to salary + project income, net annual profit
falls back to 12 x project monthly income when the latter is positive. -/
def assignFields (m : MatchResults) : LoanApplication :=
  let data := FIELD_DEFAULTS
  let data :=
    match m.ten1 with
    | some s => { data with ten_khach_hang := s.trim }
    | none =>
      match m.ten2 with
      | some s => { data with ten_khach_hang := s.trim }
      | none => data
  let data := match m.cccd with | some s => { data with cccd := s.trim } | none => data
  let data :=
    match m.noi_cu_tru with
    | some s => { data with noi_cu_tru := s.trim }
    | none => data
  let data := match m.sdt with | some s => { data with so_dien_thoai := s.trim } | none => data
  let data :=
    match m.muc_dich1 with
    | some s => { data with muc_dich_vay := s.trim }
    | none =>
      match m.muc_dich2 with
      | some s => { data with muc_dich_vay := s.trim.take 200 }
      | none => data
  let data :=
    match m.tnc with
    | some s => { data with tong_nhu_cau_von := vnd_to_float s }
    | none => data
  let data :=
    match m.von_du with
    | some s => { data with von_doi_ung := vnd_to_float s }
    | none => data
  let data :=
    match m.so_tien_vay with
    | some s => { data with so_tien_vay := vnd_to_float s }
    | none => data
  let data :=
    match m.thoi_han with
    | some n => { data with thoi_gian_vay_thang := (n : ℤ) }
    | none => data
  let data :=
    match m.lai_suat with
    | some s => { data with lai_suat_nam := percent_to_float s }
    | none => data
  let thu_nhap_du_an := match m.thu_nhap_du_an with | some s => vnd_to_float s | none => 0
  let thu_nhap_luong := match m.thu_nhap_luong with | some s => vnd_to_float s | none => 0
  let data :=
    match m.tong_thu_nhap with
    | some s => { data with thu_nhap_thang := vnd_to_float s }
    | none => { data with thu_nhap_thang := thu_nhap_luong + thu_nhap_du_an }
  let data :=
    match m.tsdb1 with
    | some s => { data with gia_tri_tsdb := vnd_to_float s }
    | none =>
      match m.tsdb2 with
      | some s => { data with gia_tri_tsdb := vnd_to_float s }
      | none => data
  let data :=
    match m.loi_nhuan with
    | some s => { data with loi_nhuan_rong_nam := vnd_to_float s }
    | none =>
      if 0 < thu_nhap_du_an then { data with loi_nhuan_rong_nam := thu_nhap_du_an * 12 }
      else data
  data

/-- The cross-field repair pass of `extract_from_docx`
(python.py lines 230-237), applied once, in order: total capital need,
then total investment, then collateral value. -/
def repairPass (d : LoanApplication) : LoanApplication :=
  let d :=
    if d.tong_nhu_cau_von = 0 ∧ 0 < d.von_doi_ung + d.so_tien_vay then
      { d with tong_nhu_cau_von := d.von_doi_ung + d.so_tien_vay }
    else d
  let d :=
    if d.tong_von_dau_tu = 0 then { d with tong_von_dau_tu := d.tong_nhu_cau_von } else d
  let d :=
    if d.gia_tri_tsdb = 0 ∧ 0 < d.tong_nhu_cau_von then
      { d with gia_tri_tsdb := d.tong_nhu_cau_von }
    else d
  d

/-- Rule application followed by the repair pass: the record-building
part of `extract_from_docx` once the normalized text is matched. -/
def applyExtraction (m : MatchResults) : LoanApplication :=
  repairPass (assignFields m)

/-- Text normalization of `extract_from_docx` (python.py lines 124-127):
join the paragraphs, trim every line, drop blank lines, preserve order. -/
def normalizeParagraphs (paras : List String) : String :=
  let full := String.intercalate "\n" paras
  let lines := (full.splitOn "\n").map String.trim
  String.intercalate "\n" (lines.filter (fun l => l ≠ ""))

/-- `extract_from_docx` (python.py lines 116-239).  The external
python-docx `Document` constructor is modelled by the `document`
parameter: `none` when the library is unavailable (the `Document is
None` guard), otherwise a reader that either returns the paragraph
texts or fails — `Document(bio)` raises `PackageNotFoundError` on bytes
that are not a valid docx package, and the source has no handler for
it, so the failure propagates to the caller (`Except.error`).  The
`matcher` parameter stands for the fixed `re.search` cascade run on the
normalized text. -/
def extract_from_docx (document : Option (List ℕ → Except Unit (List String)))
    (matcher : String → MatchResults) (file_bytes : List ℕ) :
    Except Unit LoanApplication :=
  match document with
  | none => Except.ok FIELD_DEFAULTS
  | some reader =>
    match reader file_bytes with
    | Except.error e => Except.error e
    | Except.ok paras => Except.ok (applyExtraction (matcher (normalizeParagraphs paras)))

/-- A docx reader on which the `Document` constructor raises, as it does
on empty or corrupt bytes that are not a valid zip package. -/
def failingDocxReader : List ℕ → Except Unit (List String) :=
  fun _ => Except.error ()

/-- `Except`-result test used to phrase "returns without raising". -/
def exceptIsOk : Except Unit LoanApplication → Bool
  | Except.ok _ => true
  | Except.error _ => false

/-- `annuity_payment` (python.py lines 242-249) with the monthly rate
`r = annual_rate_pct / 100 / 12` inlined: `0` for a non-positive term,
`principal / months` when the rate is zero, otherwise the annuity
formula `P * r * (1+r)^N / ((1+r)^N - 1)`. -/
def annuity_payment (principal annual_rate_pct : ℚ) (months : ℤ) : ℚ :=
  if months ≤ 0 then 0
  else if annual_rate_pct / 100 / 12 = 0 then principal / (months : ℚ)
  else
    principal * (annual_rate_pct / 100 / 12) *
        (1 + annual_rate_pct / 100 / 12) ^ months.toNat /
      ((1 + annual_rate_pct / 100 / 12) ^ months.toNat - 1)

/-- One row of the amortization schedule (python.py lines 265-272) with
the four currency columns rounded to whole units; the payment-date
column (`start_date + 30*i days`, a display string) is not modelled. -/
structure AmortRow where
  ky : ℕ
  tien_lai : ℤ
  tien_goc : ℤ
  tong_phai_tra : ℤ
  du_no_con_lai : ℤ
deriving DecidableEq

/-- The schedule loop of `build_amortization` (python.py lines 258-272):
period interest `balance * r`, principal portion `pmt - interest`, new
balance floored at zero, each row holding the rounded values.  The
first argument counts the remaining periods, `i` is the period index. -/
def amortRows (pmt r : ℚ) : ℕ → ℕ → ℚ → List AmortRow
  | 0, _, _ => []
  | n + 1, i, bal =>
    { ky := i
      tien_lai := pyRound (bal * r)
      tien_goc := pyRound (pmt - bal * r)
      tong_phai_tra := pyRound pmt
      du_no_con_lai := pyRound (max 0 (bal - (pmt - bal * r))) } ::
      amortRows pmt r n (i + 1) (max 0 (bal - (pmt - bal * r)))

/-- `build_amortization` (python.py lines 252-274): monthly rate
`r = annual_rate_pct/100/12`, fixed payment from `annuity_payment`,
then the schedule loop over periods `1..months`. -/
def build_amortization (principal annual_rate_pct : ℚ) (months : ℤ) : List AmortRow :=
  amortRows (annuity_payment principal annual_rate_pct months)
    (annual_rate_pct / 100 / 12) months.toNat 1 principal

/-- The metrics record returned by `compute_metrics` (python.py lines
302-337).  `np.nan` sentinels are modelled as `none`. -/
structure MetricsResult where
  PMT_thang : ℚ
  DSR : Option ℚ
  E_over_C : Option ℚ
  LTV : Option ℚ
  Debt_over_Income : ℚ
  ROI : Option ℚ
  CFR : Option ℚ
  Coverage : Option ℚ
  Phuong_an_hop_ly : Bool
  Score_AI_demo : ℚ
deriving DecidableEq

/-- Score contribution of DSR (python.py lines 326-327):
`max(0, 1 - min(1, DSR)) * 0.25` when DSR is a number, else nothing. -/
def scoreTermDSR : Option ℚ → ℚ
  | some v => max 0 (1 - min 1 v) * (25 / 100)
  | none => 0

/-- Score contribution of LTV (python.py lines 328-329). -/
def scoreTermLTV : Option ℚ → ℚ
  | some v => max 0 (1 - min 1 v) * (25 / 100)
  | none => 0

/-- Score contribution of E/C (python.py lines 330-331):
`min(1, E_over_C / 0.3) * 0.2`. -/
def scoreTermEC : Option ℚ → ℚ
  | some v => min 1 (v / (3 / 10)) * (2 / 10)
  | none => 0

/-- Score contribution of CFR (python.py lines 332-333):
`max(0, min(1, CFR)) * 0.2`. -/
def scoreTermCFR : Option ℚ → ℚ
  | some v => max 0 (min 1 v) * (2 / 10)
  | none => 0

/-- Score contribution of collateral coverage (python.py lines
334-335): `min(1, Coverage / 1.5) * 0.1`. -/
def scoreTermCov : Option ℚ → ℚ
  | some v => min 1 (v / (3 / 2)) * (1 / 10)
  | none => 0

/-- `compute_metrics` (python.py lines 302-337).  The record's income is
floored at `1e-9` before any ratio is formed (line 305), so the
`thu_nhap_thang > 0` guards on DSR and CFR always hold; E/C, LTV, ROI
and Coverage report the `NaN` sentinel when their guard fails;
Debt-over-Income floors its denominator instead.  The composite score
adds the five guarded terms and rounds to three decimals. -/
def compute_metrics (d : LoanApplication) : MetricsResult :=
  let pmt := annuity_payment d.so_tien_vay d.lai_suat_nam d.thoi_gian_vay_thang
  let thu_nhap_thang := max (1 / 1000000000) d.thu_nhap_thang
  let dsr := if 0 < thu_nhap_thang then some (pmt / thu_nhap_thang) else none
  let e_over_c :=
    if 0 < d.tong_nhu_cau_von then some (d.von_doi_ung / d.tong_nhu_cau_von) else none
  let ltv := if 0 < d.gia_tri_tsdb then some (d.so_tien_vay / d.gia_tri_tsdb) else none
  let thu_nhap_nam := thu_nhap_thang * 12
  let dti := (d.tong_no_hien_tai + d.so_tien_vay) / max (1 / 1000000000) thu_nhap_nam
  let roi :=
    if 0 < d.tong_von_dau_tu then
      some (d.loi_nhuan_rong_nam / max (1 / 1000000000) d.tong_von_dau_tu)
    else none
  let cfr := if 0 < thu_nhap_thang then some ((thu_nhap_thang - pmt) / thu_nhap_thang) else none
  let coverage :=
    if 0 < d.so_tien_vay then some (d.gia_tri_tsdb / max (1 / 1000000000) d.so_tien_vay)
    else none
  { PMT_thang := pmt
    DSR := dsr
    E_over_C := e_over_c
    LTV := ltv
    Debt_over_Income := dti
    ROI := roi
    CFR := cfr
    Coverage := coverage
    Phuong_an_hop_ly :=
      pyIsClose d.tong_nhu_cau_von (d.von_doi_ung + d.so_tien_vay) (2 / 100) 1000000
    Score_AI_demo :=
      round3 (0 + scoreTermDSR dsr + scoreTermLTV ltv + scoreTermEC e_over_c +
        scoreTermCFR cfr + scoreTermCov coverage) }

/-- Score contribution of DSR as the specification states it, without
the redundant lower clamp: `(1 - min(1, DSR)) * 0.25`. -/
def specScoreDSRTerm : Option ℚ → ℚ
  | some v => (1 - min 1 v) * (25 / 100)
  | none => 0

/-- Score contribution of LTV as the specification states it:
`(1 - min(1, LTV)) * 0.25`. -/
def specScoreLTVTerm : Option ℚ → ℚ
  | some v => (1 - min 1 v) * (25 / 100)
  | none => 0

/-- Score contribution of E/C as the specification states it:
`min(1, EquityToCost / 0.3) * 0.20`. -/
def specScoreECTerm : Option ℚ → ℚ
  | some v => min 1 (v / (3 / 10)) * (2 / 10)
  | none => 0

/-- Score contribution of CFR as the specification states it:
`clamp(CFR, 0, 1) * 0.20`. -/
def specScoreCFRTerm : Option ℚ → ℚ
  | some v => max 0 (min 1 v) * (2 / 10)
  | none => 0

/-- Score contribution of coverage as the specification states it:
`min(1, Coverage / 1.5) * 0.10`. -/
def specScoreCovTerm : Option ℚ → ℚ
  | some v => min 1 (v / (3 / 2)) * (1 / 10)
  | none => 0

/-! ### Projection lemmas for `compute_metrics` -/

lemma compute_metrics_PMT (d : LoanApplication) :
    (compute_metrics d).PMT_thang =
      annuity_payment d.so_tien_vay d.lai_suat_nam d.thoi_gian_vay_thang := rfl

lemma compute_metrics_DSR (d : LoanApplication) :
    (compute_metrics d).DSR =
      if 0 < max (1 / 1000000000) d.thu_nhap_thang then
        some (annuity_payment d.so_tien_vay d.lai_suat_nam d.thoi_gian_vay_thang /
          max (1 / 1000000000) d.thu_nhap_thang)
      else none := rfl

lemma compute_metrics_E_over_C (d : LoanApplication) :
    (compute_metrics d).E_over_C =
      if 0 < d.tong_nhu_cau_von then some (d.von_doi_ung / d.tong_nhu_cau_von)
      else none := rfl

lemma compute_metrics_LTV (d : LoanApplication) :
    (compute_metrics d).LTV =
      if 0 < d.gia_tri_tsdb then some (d.so_tien_vay / d.gia_tri_tsdb) else none := rfl

lemma compute_metrics_CFR (d : LoanApplication) :
    (compute_metrics d).CFR =
      if 0 < max (1 / 1000000000) d.thu_nhap_thang then
        some ((max (1 / 1000000000) d.thu_nhap_thang -
            annuity_payment d.so_tien_vay d.lai_suat_nam d.thoi_gian_vay_thang) /
          max (1 / 1000000000) d.thu_nhap_thang)
      else none := rfl

lemma compute_metrics_Coverage (d : LoanApplication) :
    (compute_metrics d).Coverage =
      if 0 < d.so_tien_vay then
        some (d.gia_tri_tsdb / max (1 / 1000000000) d.so_tien_vay)
      else none := rfl

lemma compute_metrics_flag (d : LoanApplication) :
    (compute_metrics d).Phuong_an_hop_ly =
      pyIsClose d.tong_nhu_cau_von (d.von_doi_ung + d.so_tien_vay) (2 / 100) 1000000 := rfl

lemma compute_metrics_Score (d : LoanApplication) :
    (compute_metrics d).Score_AI_demo =
      round3 (0 + scoreTermDSR (compute_metrics d).DSR + scoreTermLTV (compute_metrics d).LTV +
        scoreTermEC (compute_metrics d).E_over_C + scoreTermCFR (compute_metrics d).CFR +
        scoreTermCov (compute_metrics d).Coverage) := rfl

lemma income_floor_pos (d : LoanApplication) : 0 < max (1 / 1000000000 : ℚ) d.thu_nhap_thang :=
  lt_of_lt_of_le (by norm_num) (le_max_left _ _)

lemma compute_metrics_DSR_some (d : LoanApplication) :
    (compute_metrics d).DSR =
      some (annuity_payment d.so_tien_vay d.lai_suat_nam d.thoi_gian_vay_thang /
        max (1 / 1000000000) d.thu_nhap_thang) := by
  rw [compute_metrics_DSR, if_pos (income_floor_pos d)]

lemma compute_metrics_CFR_some (d : LoanApplication) :
    (compute_metrics d).CFR =
      some ((max (1 / 1000000000) d.thu_nhap_thang -
          annuity_payment d.so_tien_vay d.lai_suat_nam d.thoi_gian_vay_thang) /
        max (1 / 1000000000) d.thu_nhap_thang) := by
  rw [compute_metrics_CFR, if_pos (income_floor_pos d)]

/-! ### Evaluation lemmas for `annuity_payment` -/

lemma annuity_payment_of_nonpos (P R : ℚ) (N : ℤ) (hN : N ≤ 0) :
    annuity_payment P R N = 0 := by
  unfold annuity_payment
  rw [if_pos hN]

lemma annuity_payment_of_rate_zero (P R : ℚ) (N : ℤ) (hN : ¬N ≤ 0) (hr : R / 100 / 12 = 0) :
    annuity_payment P R N = P / (N : ℚ) := by
  unfold annuity_payment
  rw [if_neg hN, if_pos hr]

lemma annuity_payment_of_rate_pos (P R : ℚ) (N : ℤ) (hN : ¬N ≤ 0) (hr : R / 100 / 12 ≠ 0) :
    annuity_payment P R N =
      P * (R / 100 / 12) * (1 + R / 100 / 12) ^ N.toNat /
        ((1 + R / 100 / 12) ^ N.toNat - 1) := by
  unfold annuity_payment
  rw [if_neg hN, if_neg hr]

lemma annuity_payment_nonneg (P R : ℚ) (N : ℤ) (hP : 0 ≤ P) (hR : 0 ≤ R) :
    0 ≤ annuity_payment P R N := by
  unfold annuity_payment
  split_ifs with h1 h2
  · exact le_rfl
  · apply div_nonneg hP
    have : (0 : ℤ) ≤ N := by omega
    exact_mod_cast this
  · have hr : 0 ≤ R / 100 / 12 := by positivity
    have hx : (1 : ℚ) < 1 + R / 100 / 12 :=
      lt_of_le_of_ne (by linarith) (by
        intro h
        exact h2 (by linarith [h]))
    have hpow : 1 < (1 + R / 100 / 12) ^ N.toNat := by
      apply one_lt_pow₀ hx
      omega
    apply div_nonneg
    · apply mul_nonneg (mul_nonneg hP hr)
      positivity
    · linarith

/-! ### Arithmetic lemmas for `pyRound` and `round3` -/

lemma floor_le_pyRound (x : ℚ) : ⌊x⌋ ≤ pyRound x := by
  unfold pyRound
  split_ifs <;> omega

lemma pyRound_le_floor_add_one (x : ℚ) : pyRound x ≤ ⌊x⌋ + 1 := by
  unfold pyRound
  split_ifs <;> omega

lemma pyRound_mono {x y : ℚ} (h : x ≤ y) : pyRound x ≤ pyRound y := by
  rcases lt_or_le ⌊x⌋ ⌊y⌋ with hf | hf
  · calc pyRound x ≤ ⌊x⌋ + 1 := pyRound_le_floor_add_one x
      _ ≤ ⌊y⌋ := by omega
      _ ≤ pyRound y := floor_le_pyRound y
  · have hfe : ⌊x⌋ = ⌊y⌋ := le_antisymm (Int.floor_le_floor h) hf
    unfold pyRound
    rw [hfe]
    split_ifs <;> first | omega | linarith

lemma abs_pyRound_sub_le (x : ℚ) : |(pyRound x : ℚ) - x| ≤ 1 / 2 := by
  have h1 : (⌊x⌋ : ℚ) ≤ x := Int.floor_le x
  have h2 : x < ⌊x⌋ + 1 := Int.lt_floor_add_one x
  unfold pyRound
  split_ifs with ha hb hc <;>
    (rw [abs_le]; constructor <;> (push_cast; linarith))

lemma pyRound_intCast (n : ℤ) : pyRound (n : ℚ) = n := by
  unfold pyRound
  rw [Int.floor_intCast]
  norm_num

lemma pyRound_zero : pyRound 0 = 0 := by
  have := pyRound_intCast 0
  simpa using this

lemma round3_bounds {x : ℚ} (h0 : 0 ≤ x) (h1 : x ≤ 1) : 0 ≤ round3 x ∧ round3 x ≤ 1 := by
  unfold round3
  have ha : pyRound (0 : ℚ) ≤ pyRound (x * 1000) := pyRound_mono (by nlinarith)
  have hb : pyRound (x * 1000) ≤ pyRound ((1000 : ℤ) : ℚ) := pyRound_mono (by push_cast; nlinarith)
  rw [pyRound_zero] at ha
  rw [pyRound_intCast] at hb
  constructor
  · apply div_nonneg _ (by norm_num)
    exact_mod_cast ha
  · rw [div_le_one (by norm_num)]
    exact_mod_cast hb

/-! ### Closed-form analysis of the amortization loop -/

/-- The schedule rows written against an explicit balance sequence `B`:
row for period `i` consumes balance `B k` and leaves balance `B (k+1)`. -/
def closedRows (B : ℕ → ℚ) (r pmt : ℚ) : ℕ → ℕ → ℕ → List AmortRow
  | 0, _, _ => []
  | n + 1, k, i =>
    { ky := i
      tien_lai := pyRound (B k * r)
      tien_goc := pyRound (pmt - B k * r)
      tong_phai_tra := pyRound pmt
      du_no_con_lai := pyRound (B (k + 1)) } ::
      closedRows B r pmt n (k + 1) (i + 1)

lemma amortRows_eq_closedRows (pmt r : ℚ) (N : ℕ) (B : ℕ → ℚ)
    (hstep : ∀ j, j < N → B (j + 1) = B j * (1 + r) - pmt)
    (hnn : ∀ j, j ≤ N → 0 ≤ B j) :
    ∀ n k i, k + n = N → amortRows pmt r n i (B k) = closedRows B r pmt n k i := by
  intro n
  induction n with
  | zero => intro k i _; rfl
  | succ n ih =>
    intro k i hk
    have hkN : k < N := by omega
    have hbal : max 0 (B k - (pmt - B k * r)) = B (k + 1) := by
      have h1 := hstep k hkN
      have h2 : B k - (pmt - B k * r) = B k * (1 + r) - pmt := by ring
      rw [h2, ← h1]
      exact max_eq_right (hnn (k + 1) (by omega))
    simp only [amortRows, closedRows]
    rw [hbal, ih (k + 1) (i + 1) (by omega)]

lemma closedRows_chain (B : ℕ → ℚ) (r pmt : ℚ) (hmono : ∀ j, B (j + 1) ≤ B j) :
    ∀ n k i,
      List.Chain' (fun a b => b.du_no_con_lai ≤ a.du_no_con_lai) (closedRows B r pmt n k i) := by
  intro n
  induction n with
  | zero => intro k i; exact List.chain'_nil
  | succ n ih =>
    intro k i
    rw [closedRows, List.chain'_cons']
    refine ⟨?_, ih (k + 1) (i + 1)⟩
    intro b hb
    cases n with
    | zero => simp [closedRows] at hb
    | succ n' =>
      simp only [closedRows, List.head?_cons, Option.mem_def, Option.some.injEq] at hb
      rw [← hb]
      exact pyRound_mono (hmono (k + 1))

lemma closedRows_last (B : ℕ → ℚ) (r pmt : ℚ) :
    ∀ n k i, 0 < n →
      ((closedRows B r pmt n k i).map (fun row => row.du_no_con_lai)).getLast? =
        some (pyRound (B (k + n))) := by
  intro n
  induction n with
  | zero => intro k i h; omega
  | succ n ih =>
    intro k i _
    cases n with
    | zero => simp [closedRows]
    | succ n' =>
      have h2 := ih (k + 1) (i + 1) (Nat.succ_pos n')
      have h3 : k + 1 + (n' + 1) = k + (n' + 1 + 1) := by omega
      rw [h3] at h2
      simp only [closedRows, List.map_cons] at h2 ⊢
      rw [List.getLast?_cons_cons]
      exact h2

lemma closedRows_sum (B : ℕ → ℚ) (r pmt : ℚ) (N : ℕ)
    (hstep : ∀ j, j < N → B (j + 1) = B j * (1 + r) - pmt) :
    ∀ n k i, k + n = N →
      |((closedRows B r pmt n k i).map (fun row => (row.tien_goc : ℚ))).sum -
          (B k - B (k + n))| ≤ (n : ℚ) / 2 := by
  intro n
  induction n with
  | zero =>
    intro k i _
    simp [closedRows]
  | succ n ih =>
    intro k i hk
    have hkN : k < N := by omega
    have e1 : pmt - B k * r = B k - B (k + 1) := by
      have h1 := hstep k hkN
      rw [mul_add, mul_one] at h1
      linarith
    have ih' := ih (k + 1) (i + 1) (by omega)
    have hr := abs_pyRound_sub_le (pmt - B k * r)
    simp only [closedRows, List.map_cons, List.sum_cons]
    have key : (pyRound (pmt - B k * r) : ℚ) +
          ((closedRows B r pmt n (k + 1) (i + 1)).map (fun row => (row.tien_goc : ℚ))).sum -
          (B k - B (k + (n + 1))) =
        ((pyRound (pmt - B k * r) : ℚ) - (pmt - B k * r)) +
          (((closedRows B r pmt n (k + 1) (i + 1)).map (fun row => (row.tien_goc : ℚ))).sum -
            (B (k + 1) - B (k + 1 + n))) := by
      rw [e1, show k + (n + 1) = k + 1 + n from by omega]
      ring
    rw [key]
    calc |((pyRound (pmt - B k * r) : ℚ) - (pmt - B k * r)) +
          (((closedRows B r pmt n (k + 1) (i + 1)).map (fun row => (row.tien_goc : ℚ))).sum -
            (B (k + 1) - B (k + 1 + n)))|
        ≤ |(pyRound (pmt - B k * r) : ℚ) - (pmt - B k * r)| +
          |((closedRows B r pmt n (k + 1) (i + 1)).map (fun row => (row.tien_goc : ℚ))).sum -
            (B (k + 1) - B (k + 1 + n))| := abs_add _ _
      _ ≤ 1 / 2 + (n : ℚ) / 2 := add_le_add hr ih'
      _ = ((n + 1 : ℕ) : ℚ) / 2 := by push_cast; ring

/-- All three schedule invariants, for any balance sequence `B` that the
loop follows exactly: the rounded balance column is non-increasing, its
last entry is the rounded `B N`, and the rounded principal column sums
to `B 0 - B N` up to `N/2`. -/
lemma amortRows_invariants (pmt r P : ℚ) (Nn : ℕ) (hNn : 0 < Nn) (B : ℕ → ℚ)
    (hstep : ∀ j, j < Nn → B (j + 1) = B j * (1 + r) - pmt)
    (hnn : ∀ j, j ≤ Nn → 0 ≤ B j)
    (hmono : ∀ j, B (j + 1) ≤ B j)
    (hB0 : B 0 = P) (hBN : B Nn = 0) :
    List.Chain' (fun a b => b.du_no_con_lai ≤ a.du_no_con_lai) (amortRows pmt r Nn 1 P) ∧
      ((amortRows pmt r Nn 1 P).map (fun row => row.du_no_con_lai)).getLast? = some 0 ∧
      |((amortRows pmt r Nn 1 P).map (fun row => (row.tien_goc : ℚ))).sum - P| ≤ (Nn : ℚ) / 2 := by
  have hrows : amortRows pmt r Nn 1 P = closedRows B r pmt Nn 0 1 := by
    rw [← hB0]
    exact amortRows_eq_closedRows pmt r Nn B hstep hnn Nn 0 1 (by omega)
  refine ⟨?_, ?_, ?_⟩
  · rw [hrows]
    exact closedRows_chain B r pmt hmono Nn 0 1
  · rw [hrows, closedRows_last B r pmt Nn 0 1 hNn]
    rw [show (0 + Nn : ℕ) = Nn by omega, hBN, pyRound_zero]
  · rw [hrows]
    have := closedRows_sum B r pmt Nn hstep Nn 0 1 (by omega)
    rw [show (0 + Nn : ℕ) = Nn by omega, hB0, hBN] at this
    simpa using this

/-! ### Claims C4 and C5: amortization engine -/

/-- C4: for every principal P>0, annual rate R>=0 and term N>0, the
schedule built by `build_amortization` has a non-increasing rounded
remaining-balance column, the last remaining balance is 0 (the exact
balance reaches 0, and flooring and rounding keep it there), and the
rounded per-period principal portions sum to P within N currency
units. -/
theorem build_amortization_invariants (P R : ℚ) (N : ℤ)
    (hP : 0 < P) (hR : 0 ≤ R) (hN : 0 < N) :
    List.Chain' (fun a b => b.du_no_con_lai ≤ a.du_no_con_lai) (build_amortization P R N) ∧
      ((build_amortization P R N).map (fun row => row.du_no_con_lai)).getLast? = some 0 ∧
      |((build_amortization P R N).map (fun row => (row.tien_goc : ℚ))).sum - P| ≤ (N : ℚ) := by
  have hNn : 0 < N.toNat := by omega
  have hNQ : ((N.toNat : ℚ)) = (N : ℚ) := by exact_mod_cast Int.toNat_of_nonneg hN.le
  have hNle : ¬N ≤ 0 := by omega
  have hbuild : build_amortization P R N =
      amortRows (annuity_payment P R N) (R / 100 / 12) N.toNat 1 P := rfl
  have hr0 : 0 ≤ R / 100 / 12 := by positivity
  rcases eq_or_lt_of_le hr0 with hrz | hrp
  · -- zero monthly rate: linear balance sequence
    have hpmt_eq : annuity_payment P R N = P / (N.toNat : ℚ) := by
      rw [annuity_payment_of_rate_zero P R N hNle hrz.symm, hNQ]
    have hNQ0 : (0 : ℚ) < (N.toNat : ℚ) := by exact_mod_cast hNn
    have hpmt_nonneg : 0 ≤ annuity_payment P R N := by
      rw [hpmt_eq]; positivity
    have main := amortRows_invariants (annuity_payment P R N) (R / 100 / 12) P N.toNat hNn
      (fun j => P - (j : ℚ) * annuity_payment P R N)
      (by
        intro j _
        rw [← hrz]
        push_cast
        ring)
      (by
        intro j hj
        show 0 ≤ P - (j : ℚ) * annuity_payment P R N
        have hjQ : (j : ℚ) ≤ (N.toNat : ℚ) := by exact_mod_cast hj
        have h1 : (j : ℚ) * annuity_payment P R N ≤ (N.toNat : ℚ) * annuity_payment P R N :=
          mul_le_mul_of_nonneg_right hjQ hpmt_nonneg
        have h2 : (N.toNat : ℚ) * annuity_payment P R N = P := by
          rw [hpmt_eq]
          field_simp
        linarith)
      (by
        intro j
        have := hpmt_nonneg
        push_cast
        nlinarith)
      (by push_cast; ring)
      (by
        rw [hpmt_eq]
        field_simp)
    rw [hbuild]
    refine ⟨main.1, main.2.1, ?_⟩
    calc |((amortRows (annuity_payment P R N) (R / 100 / 12) N.toNat 1 P).map
            (fun row => (row.tien_goc : ℚ))).sum - P| ≤ (N.toNat : ℚ) / 2 := main.2.2
      _ ≤ (N : ℚ) := by rw [← hNQ]; linarith
  · -- positive monthly rate: geometric balance sequence
    have hx : (1 : ℚ) < 1 + R / 100 / 12 := by linarith
    have hxN : 1 < (1 + R / 100 / 12) ^ N.toNat := one_lt_pow₀ hx (by omega)
    have hD : 0 < (1 + R / 100 / 12) ^ N.toNat - 1 := by linarith
    have hpmt_eq : annuity_payment P R N =
        P * (R / 100 / 12) * (1 + R / 100 / 12) ^ N.toNat /
          ((1 + R / 100 / 12) ^ N.toNat - 1) :=
      annuity_payment_of_rate_pos P R N hNle hrp.ne'
    have main := amortRows_invariants (annuity_payment P R N) (R / 100 / 12) P N.toNat hNn
      (fun j => P * ((1 + R / 100 / 12) ^ N.toNat - (1 + R / 100 / 12) ^ j) /
        ((1 + R / 100 / 12) ^ N.toNat - 1))
      (by
        intro j _
        show P * ((1 + R / 100 / 12) ^ N.toNat - (1 + R / 100 / 12) ^ (j + 1)) /
              ((1 + R / 100 / 12) ^ N.toNat - 1) =
            P * ((1 + R / 100 / 12) ^ N.toNat - (1 + R / 100 / 12) ^ j) /
                ((1 + R / 100 / 12) ^ N.toNat - 1) * (1 + R / 100 / 12) -
              annuity_payment P R N
        rw [hpmt_eq, div_mul_eq_mul_div, div_sub_div_same]
        congr 1
        rw [pow_succ]
        ring
      )
      (by
        intro j hj
        apply div_nonneg _ hD.le
        apply mul_nonneg hP.le
        have : (1 + R / 100 / 12) ^ j ≤ (1 + R / 100 / 12) ^ N.toNat :=
          pow_le_pow_right₀ hx.le hj
        linarith)
      (by
        intro j
        show P * ((1 + R / 100 / 12) ^ N.toNat - (1 + R / 100 / 12) ^ (j + 1)) /
              ((1 + R / 100 / 12) ^ N.toNat - 1) ≤
            P * ((1 + R / 100 / 12) ^ N.toNat - (1 + R / 100 / 12) ^ j) /
              ((1 + R / 100 / 12) ^ N.toNat - 1)
        apply div_le_div_of_nonneg_right ?_ hD.le
        apply mul_le_mul_of_nonneg_left _ hP.le
        have : (1 + R / 100 / 12) ^ j ≤ (1 + R / 100 / 12) ^ (j + 1) :=
          pow_le_pow_right₀ hx.le (by omega)
        linarith)
      (by
        show P * ((1 + R / 100 / 12) ^ N.toNat - (1 + R / 100 / 12) ^ 0) /
            ((1 + R / 100 / 12) ^ N.toNat - 1) = P
        rw [pow_zero, div_eq_iff hD.ne'])
      (by simp)
    rw [hbuild]
    refine ⟨main.1, main.2.1, ?_⟩
    calc |((amortRows (annuity_payment P R N) (R / 100 / 12) N.toNat 1 P).map
            (fun row => (row.tien_goc : ℚ))).sum - P| ≤ (N.toNat : ℚ) / 2 := main.2.2
      _ ≤ (N : ℚ) := by
        rw [← hNQ]
        have : (0 : ℚ) ≤ (N.toNat : ℚ) := by positivity
        linarith

/-- C4 witness at P = 100, R = 12, N = 1. -/
theorem build_amortization_invariants_witness :
    List.Chain' (fun a b => b.du_no_con_lai ≤ a.du_no_con_lai)
        (build_amortization 100 12 1) ∧
      ((build_amortization 100 12 1).map (fun row => row.du_no_con_lai)).getLast? = some 0 ∧
      |((build_amortization 100 12 1).map (fun row => (row.tien_goc : ℚ))).sum - 100| ≤
        ((1 : ℤ) : ℚ) :=
  build_amortization_invariants 100 12 1 (by norm_num) (by norm_num) (by norm_num)

/-- C5: `annuity_payment` returns the annuity formula with
`r = R/1200` for a positive monthly rate and positive term, exactly
`P / N` for a zero rate and positive term, and `0` for a non-positive
term. -/
theorem annuity_payment_spec :
    (∀ (P R : ℚ) (N : ℤ), 0 < R / 1200 → 0 < N →
        annuity_payment P R N =
          P * (R / 1200) * (1 + R / 1200) ^ N.toNat / ((1 + R / 1200) ^ N.toNat - 1)) ∧
      (∀ (P : ℚ) (N : ℤ), 0 < N → annuity_payment P 0 N = P / (N : ℚ)) ∧
      (∀ (P R : ℚ) (N : ℤ), N ≤ 0 → annuity_payment P R N = 0) := by
  have hdiv : ∀ R : ℚ, R / 100 / 12 = R / 1200 := by
    intro R
    rw [div_div]
    norm_num
  refine ⟨?_, ?_, ?_⟩
  · intro P R N hr hN
    rw [annuity_payment_of_rate_pos P R N (by omega) (by rw [hdiv]; exact ne_of_gt hr), hdiv]
  · intro P N hN
    exact annuity_payment_of_rate_zero P 0 N (by omega) (by norm_num)
  · intro P R N hN
    exact annuity_payment_of_nonpos P R N hN

/-- C5 witness at (P, R, N) = (1200, 120, 1), (100, 0, 4) and
(5, 7, 0). -/
theorem annuity_payment_spec_witness :
    annuity_payment 1200 120 1 =
        1200 * ((120 : ℚ) / 1200) * (1 + (120 : ℚ) / 1200) ^ (1 : ℤ).toNat /
          ((1 + (120 : ℚ) / 1200) ^ (1 : ℤ).toNat - 1) ∧
      annuity_payment 100 0 4 = 100 / ((4 : ℤ) : ℚ) ∧
      annuity_payment 5 7 0 = 0 :=
  ⟨annuity_payment_spec.1 1200 120 1 (by norm_num) (by norm_num),
    annuity_payment_spec.2.1 100 4 (by norm_num),
    annuity_payment_spec.2.2 5 7 0 le_rfl⟩

/-! ### Score-term lemmas -/

lemma scoreTermDSR_eq (o : Option ℚ) : scoreTermDSR o = specScoreDSRTerm o := by
  cases o with
  | none => rfl
  | some v =>
    show max 0 (1 - min 1 v) * (25 / 100) = (1 - min 1 v) * (25 / 100)
    rw [max_eq_right (sub_nonneg.mpr (min_le_left 1 v))]

lemma scoreTermLTV_eq (o : Option ℚ) : scoreTermLTV o = specScoreLTVTerm o := by
  cases o with
  | none => rfl
  | some v =>
    show max 0 (1 - min 1 v) * (25 / 100) = (1 - min 1 v) * (25 / 100)
    rw [max_eq_right (sub_nonneg.mpr (min_le_left 1 v))]

lemma scoreTermEC_eq (o : Option ℚ) : scoreTermEC o = specScoreECTerm o := by
  cases o <;> rfl

lemma scoreTermCFR_eq (o : Option ℚ) : scoreTermCFR o = specScoreCFRTerm o := by
  cases o <;> rfl

lemma scoreTermCov_eq (o : Option ℚ) : scoreTermCov o = specScoreCovTerm o := by
  cases o <;> rfl

lemma scoreTermDSR_bounds (o : Option ℚ) (h : ∀ v, o = some v → 0 ≤ v) :
    0 ≤ scoreTermDSR o ∧ scoreTermDSR o ≤ 25 / 100 := by
  cases o with
  | none =>
    refine ⟨le_rfl, ?_⟩
    show (0 : ℚ) ≤ _
    norm_num
  | some v =>
    have hv := h v rfl
    have h1 : 0 ≤ min 1 v := le_min (by norm_num) hv
    have h2 : max 0 (1 - min 1 v) ≤ 1 := max_le (by norm_num) (by linarith)
    have h3 : 0 ≤ max 0 (1 - min 1 v) := le_max_left 0 _
    constructor
    · show 0 ≤ max 0 (1 - min 1 v) * (25 / 100)
      positivity
    · show max 0 (1 - min 1 v) * (25 / 100) ≤ 25 / 100
      nlinarith

lemma scoreTermLTV_bounds (o : Option ℚ) (h : ∀ v, o = some v → 0 ≤ v) :
    0 ≤ scoreTermLTV o ∧ scoreTermLTV o ≤ 25 / 100 := by
  cases o with
  | none =>
    refine ⟨le_rfl, ?_⟩
    show (0 : ℚ) ≤ _
    norm_num
  | some v =>
    have hv := h v rfl
    have h1 : 0 ≤ min 1 v := le_min (by norm_num) hv
    have h2 : max 0 (1 - min 1 v) ≤ 1 := max_le (by norm_num) (by linarith)
    have h3 : 0 ≤ max 0 (1 - min 1 v) := le_max_left 0 _
    constructor
    · show 0 ≤ max 0 (1 - min 1 v) * (25 / 100)
      positivity
    · show max 0 (1 - min 1 v) * (25 / 100) ≤ 25 / 100
      nlinarith

lemma scoreTermEC_bounds (o : Option ℚ) (h : ∀ v, o = some v → 0 ≤ v) :
    0 ≤ scoreTermEC o ∧ scoreTermEC o ≤ 2 / 10 := by
  cases o with
  | none =>
    refine ⟨le_rfl, ?_⟩
    show (0 : ℚ) ≤ _
    norm_num
  | some v =>
    have hv := h v rfl
    have h1 : 0 ≤ min 1 (v / (3 / 10)) := le_min (by norm_num) (by positivity)
    have h2 : min 1 (v / (3 / 10)) ≤ 1 := min_le_left _ _
    constructor
    · show 0 ≤ min 1 (v / (3 / 10)) * (2 / 10)
      positivity
    · show min 1 (v / (3 / 10)) * (2 / 10) ≤ 2 / 10
      nlinarith

lemma scoreTermCFR_bounds (o : Option ℚ) :
    0 ≤ scoreTermCFR o ∧ scoreTermCFR o ≤ 2 / 10 := by
  cases o with
  | none =>
    refine ⟨le_rfl, ?_⟩
    show (0 : ℚ) ≤ _
    norm_num
  | some v =>
    have h1 : 0 ≤ max 0 (min 1 v) := le_max_left 0 _
    have h2 : max 0 (min 1 v) ≤ 1 := max_le (by norm_num) (min_le_left _ _)
    constructor
    · show 0 ≤ max 0 (min 1 v) * (2 / 10)
      positivity
    · show max 0 (min 1 v) * (2 / 10) ≤ 2 / 10
      nlinarith

lemma scoreTermCov_bounds (o : Option ℚ) (h : ∀ v, o = some v → 0 ≤ v) :
    0 ≤ scoreTermCov o ∧ scoreTermCov o ≤ 1 / 10 := by
  cases o with
  | none =>
    refine ⟨le_rfl, ?_⟩
    show (0 : ℚ) ≤ _
    norm_num
  | some v =>
    have hv := h v rfl
    have h1 : 0 ≤ min 1 (v / (3 / 2)) := le_min (by norm_num) (by positivity)
    have h2 : min 1 (v / (3 / 2)) ≤ 1 := min_le_left _ _
    constructor
    · show 0 ≤ min 1 (v / (3 / 2)) * (1 / 10)
      positivity
    · show min 1 (v / (3 / 2)) * (1 / 10) ≤ 1 / 10
      nlinarith

/-! ### Claims C3 and C10: composite score -/

/-- C3: the composite score is the weighted sum of the five term
contributions, each term omitted (contributing nothing, with the other
weights unchanged) when its ratio is the undefined sentinel, rounded to
three decimals; when all five ratios are defined it equals
`(1-min(1,DSR))*0.25 + (1-min(1,LTV))*0.25 + min(1,EC/0.3)*0.20 +
clamp(CFR,0,1)*0.20 + min(1,Coverage/1.5)*0.10` rounded to three
decimals. -/
theorem compute_metrics_score_formula (d : LoanApplication) :
    (compute_metrics d).Score_AI_demo =
        round3 (specScoreDSRTerm (compute_metrics d).DSR +
          specScoreLTVTerm (compute_metrics d).LTV +
          specScoreECTerm (compute_metrics d).E_over_C +
          specScoreCFRTerm (compute_metrics d).CFR +
          specScoreCovTerm (compute_metrics d).Coverage) ∧
      (∀ dsr ltv ec cfr cov : ℚ,
        (compute_metrics d).DSR = some dsr →
        (compute_metrics d).LTV = some ltv →
        (compute_metrics d).E_over_C = some ec →
        (compute_metrics d).CFR = some cfr →
        (compute_metrics d).Coverage = some cov →
        (compute_metrics d).Score_AI_demo =
          round3 ((1 - min 1 dsr) * (25 / 100) + (1 - min 1 ltv) * (25 / 100) +
            min 1 (ec / (3 / 10)) * (2 / 10) + max 0 (min 1 cfr) * (2 / 10) +
            min 1 (cov / (3 / 2)) * (1 / 10))) := by
  have base : (compute_metrics d).Score_AI_demo =
      round3 (specScoreDSRTerm (compute_metrics d).DSR +
        specScoreLTVTerm (compute_metrics d).LTV +
        specScoreECTerm (compute_metrics d).E_over_C +
        specScoreCFRTerm (compute_metrics d).CFR +
        specScoreCovTerm (compute_metrics d).Coverage) := by
    rw [compute_metrics_Score, scoreTermDSR_eq, scoreTermLTV_eq, scoreTermEC_eq,
      scoreTermCFR_eq, scoreTermCov_eq]
    exact congrArg round3 (by ring)
  refine ⟨base, ?_⟩
  intro dsr ltv ec cfr cov hdsr hltv hec hcfr hcov
  rw [base, hdsr, hltv, hec, hcfr, hcov]
  simp only [specScoreDSRTerm, specScoreLTVTerm, specScoreECTerm, specScoreCFRTerm,
    specScoreCovTerm]

/-- Concrete record with every ratio denominator positive, for the C3
witness: loan 70 over 7 months at rate 0, income 50, collateral 100,
capital need 100, equity 30. -/
def scoreWitnessApp : LoanApplication :=
  { FIELD_DEFAULTS with
    tong_nhu_cau_von := 100
    von_doi_ung := 30
    so_tien_vay := 70
    gia_tri_tsdb := 100
    thu_nhap_thang := 50
    lai_suat_nam := 0
    thoi_gian_vay_thang := 7 }

/-- C3 witness: at `scoreWitnessApp` the ratios are DSR = 1/5,
LTV = 7/10, E/C = 3/10, CFR = 4/5, Coverage = 10/7, and the score is the
full five-term formula. -/
theorem compute_metrics_score_formula_witness :
    (compute_metrics scoreWitnessApp).Score_AI_demo =
      round3 ((1 - min 1 (1 / 5 : ℚ)) * (25 / 100) + (1 - min 1 (7 / 10 : ℚ)) * (25 / 100) +
        min 1 ((3 / 10 : ℚ) / (3 / 10)) * (2 / 10) + max 0 (min 1 (4 / 5 : ℚ)) * (2 / 10) +
        min 1 ((10 / 7 : ℚ) / (3 / 2)) * (1 / 10)) := by
  have hpmt : annuity_payment scoreWitnessApp.so_tien_vay scoreWitnessApp.lai_suat_nam
      scoreWitnessApp.thoi_gian_vay_thang = 10 := by
    show annuity_payment 70 0 7 = 10
    rw [annuity_payment_of_rate_zero 70 0 7 (by omega) (by norm_num)]
    norm_num
  have hmax : max (1 / 1000000000 : ℚ) scoreWitnessApp.thu_nhap_thang = 50 := by
    show max (1 / 1000000000 : ℚ) 50 = 50
    norm_num
  refine (compute_metrics_score_formula scoreWitnessApp).2 (1 / 5) (7 / 10) (3 / 10) (4 / 5)
    (10 / 7) ?_ ?_ ?_ ?_ ?_
  · rw [compute_metrics_DSR_some, hpmt, hmax]
    norm_num
  · rw [compute_metrics_LTV]
    rw [if_pos (show (0 : ℚ) < scoreWitnessApp.gia_tri_tsdb from by norm_num [scoreWitnessApp])]
    show some ((70 : ℚ) / 100) = some (7 / 10)
    norm_num
  · rw [compute_metrics_E_over_C]
    rw [if_pos (show (0 : ℚ) < scoreWitnessApp.tong_nhu_cau_von from by
      norm_num [scoreWitnessApp])]
    show some ((30 : ℚ) / 100) = some (3 / 10)
    norm_num
  · rw [compute_metrics_CFR_some, hpmt, hmax]
    norm_num
  · rw [compute_metrics_Coverage]
    rw [if_pos (show (0 : ℚ) < scoreWitnessApp.so_tien_vay from by norm_num [scoreWitnessApp])]
    show some ((100 : ℚ) / max (1 / 1000000000) 70) = some (10 / 7)
    rw [show max (1 / 1000000000 : ℚ) 70 = 70 from by norm_num]
    norm_num

/-- C10: for a record whose monetary fields, term and rate are all
non-negative, the composite score lies in [0, 1] whatever subset of the
ratios is undefined. -/
theorem compute_metrics_score_bounds (d : LoanApplication)
    (h1 : 0 ≤ d.tong_nhu_cau_von) (h2 : 0 ≤ d.von_doi_ung) (h3 : 0 ≤ d.so_tien_vay)
    (h4 : 0 ≤ d.thu_nhap_thang) (h5 : 0 ≤ d.gia_tri_tsdb) (h6 : 0 ≤ d.tong_no_hien_tai)
    (h7 : 0 ≤ d.loi_nhuan_rong_nam) (h8 : 0 ≤ d.tong_von_dau_tu) (h9 : 0 ≤ d.lai_suat_nam)
    (h10 : 0 ≤ d.thoi_gian_vay_thang) :
    0 ≤ (compute_metrics d).Score_AI_demo ∧ (compute_metrics d).Score_AI_demo ≤ 1 := by
  have hpmt := annuity_payment_nonneg d.so_tien_vay d.lai_suat_nam d.thoi_gian_vay_thang h3 h9
  have hDSRv : ∀ v, (compute_metrics d).DSR = some v → 0 ≤ v := by
    intro v hv
    rw [compute_metrics_DSR_some] at hv
    rw [← Option.some.inj hv]
    exact div_nonneg hpmt (income_floor_pos d).le
  have hLTVv : ∀ v, (compute_metrics d).LTV = some v → 0 ≤ v := by
    intro v hv
    rw [compute_metrics_LTV] at hv
    split_ifs at hv with h
    rw [← Option.some.inj hv]
    exact div_nonneg h3 h.le
  have hECv : ∀ v, (compute_metrics d).E_over_C = some v → 0 ≤ v := by
    intro v hv
    rw [compute_metrics_E_over_C] at hv
    split_ifs at hv with h
    rw [← Option.some.inj hv]
    exact div_nonneg h2 h.le
  have hCovv : ∀ v, (compute_metrics d).Coverage = some v → 0 ≤ v := by
    intro v hv
    rw [compute_metrics_Coverage] at hv
    split_ifs at hv with h
    rw [← Option.some.inj hv]
    apply div_nonneg h5
    exact (lt_of_lt_of_le (by norm_num) (le_max_left (1 / 1000000000 : ℚ) _)).le
  have t1 := scoreTermDSR_bounds _ hDSRv
  have t2 := scoreTermLTV_bounds _ hLTVv
  have t3 := scoreTermEC_bounds _ hECv
  have t4 := scoreTermCFR_bounds ((compute_metrics d).CFR)
  have t5 := scoreTermCov_bounds _ hCovv
  rw [compute_metrics_Score]
  exact round3_bounds
    (by linarith [t1.1, t2.1, t3.1, t4.1, t5.1])
    (by linarith [t1.2, t2.2, t3.2, t4.2, t5.2])

/-- C10 witness at the all-defaults record. -/
theorem compute_metrics_score_bounds_witness :
    0 ≤ (compute_metrics FIELD_DEFAULTS).Score_AI_demo ∧
      (compute_metrics FIELD_DEFAULTS).Score_AI_demo ≤ 1 :=
  compute_metrics_score_bounds FIELD_DEFAULTS (le_refl 0) (le_refl 0) (le_refl 0) (le_refl 0)
    (le_refl 0) (le_refl 0) (le_refl 0) (le_refl 0) (by norm_num [FIELD_DEFAULTS])
    (by norm_num [FIELD_DEFAULTS])

/-! ### Claim C2: zero-income ratios -/

/-- C2 counterexample: at the default record the monthly income is
exactly 0, yet `compute_metrics` reports numbers (not the NaN sentinel)
for DSR and CFR, because the income is floored at 1e-9 before the
ratios are formed. -/
theorem compute_metrics_zero_income_not_nan :
    FIELD_DEFAULTS.thu_nhap_thang = 0 ∧
      (compute_metrics FIELD_DEFAULTS).DSR ≠ none ∧
      (compute_metrics FIELD_DEFAULTS).CFR ≠ none := by
  refine ⟨rfl, ?_, ?_⟩
  · rw [compute_metrics_DSR_some]
    simp
  · rw [compute_metrics_CFR_some]
    simp

/-- C2 amended: when the monthly income is exactly 0, the income is
floored at 1e-9, so DSR = PMT * 1e9 and CFR = 1 - PMT * 1e9, both
defined numbers; the NaN branches for DSR and CFR are unreachable. -/
theorem compute_metrics_zero_income_floored (d : LoanApplication)
    (h : d.thu_nhap_thang = 0) :
    (compute_metrics d).DSR =
        some (annuity_payment d.so_tien_vay d.lai_suat_nam d.thoi_gian_vay_thang *
          1000000000) ∧
      (compute_metrics d).CFR =
        some (1 - annuity_payment d.so_tien_vay d.lai_suat_nam d.thoi_gian_vay_thang *
          1000000000) := by
  have hm : max (1 / 1000000000 : ℚ) d.thu_nhap_thang = 1 / 1000000000 := by
    rw [h]
    norm_num
  constructor
  · rw [compute_metrics_DSR_some, hm]
    congr 1
    rw [div_eq_iff (by norm_num : (1 / 1000000000 : ℚ) ≠ 0)]
    ring
  · rw [compute_metrics_CFR_some, hm]
    congr 1
    rw [div_eq_iff (by norm_num : (1 / 1000000000 : ℚ) ≠ 0)]
    ring

/-- C2 amended witness at the default record. -/
theorem compute_metrics_zero_income_floored_witness :
    (compute_metrics FIELD_DEFAULTS).DSR =
        some (annuity_payment FIELD_DEFAULTS.so_tien_vay FIELD_DEFAULTS.lai_suat_nam
          FIELD_DEFAULTS.thoi_gian_vay_thang * 1000000000) ∧
      (compute_metrics FIELD_DEFAULTS).CFR =
        some (1 - annuity_payment FIELD_DEFAULTS.so_tien_vay FIELD_DEFAULTS.lai_suat_nam
          FIELD_DEFAULTS.thoi_gian_vay_thang * 1000000000) :=
  compute_metrics_zero_income_floored FIELD_DEFAULTS rfl

/-! ### Claim C8: plan-consistency flag -/

/-- Record with capital need 100,000,000 against funding 100,500,000. -/
def planClose : LoanApplication :=
  { FIELD_DEFAULTS with
    tong_nhu_cau_von := 100000000
    von_doi_ung := 30500000
    so_tien_vay := 70000000 }

/-- Record with capital need 100,000,000 against funding 106,000,000. -/
def planFar : LoanApplication :=
  { FIELD_DEFAULTS with
    tong_nhu_cau_von := 100000000
    von_doi_ung := 36000000
    so_tien_vay := 70000000 }

/-- C8: the plan-consistency flag is true exactly when the capital need
is within 2 percent relative tolerance of the larger magnitude, or
within 1,000,000 absolute tolerance, of equity + loan; in particular
100,000,000 against 100,500,000 is consistent and against 106,000,000
is not. -/
theorem plan_consistency_spec :
    (∀ d : LoanApplication,
        (compute_metrics d).Phuong_an_hop_ly = true ↔
          |d.tong_nhu_cau_von - (d.von_doi_ung + d.so_tien_vay)| ≤
              2 / 100 * max |d.tong_nhu_cau_von| |d.von_doi_ung + d.so_tien_vay| ∨
            |d.tong_nhu_cau_von - (d.von_doi_ung + d.so_tien_vay)| ≤ 1000000) ∧
      (compute_metrics planClose).Phuong_an_hop_ly = true ∧
      (compute_metrics planFar).Phuong_an_hop_ly = false := by
  have hiff : ∀ d : LoanApplication,
      (compute_metrics d).Phuong_an_hop_ly = true ↔
        |d.tong_nhu_cau_von - (d.von_doi_ung + d.so_tien_vay)| ≤
            2 / 100 * max |d.tong_nhu_cau_von| |d.von_doi_ung + d.so_tien_vay| ∨
          |d.tong_nhu_cau_von - (d.von_doi_ung + d.so_tien_vay)| ≤ 1000000 := by
    intro d
    rw [compute_metrics_flag]
    unfold pyIsClose
    rw [decide_eq_true_eq, le_max_iff]
  refine ⟨hiff, ?_, ?_⟩
  · rw [hiff planClose]
    right
    show |(100000000 : ℚ) - (30500000 + 70000000)| ≤ 1000000
    norm_num
  · rw [compute_metrics_flag]
    unfold pyIsClose
    rw [decide_eq_false_iff_not]
    show ¬(|(100000000 : ℚ) - (36000000 + 70000000)| ≤
      max (2 / 100 * max |(100000000 : ℚ)| |(36000000 : ℚ) + 70000000|) 1000000)
    rw [le_max_iff]
    push_neg
    constructor
    · rw [show max |(100000000 : ℚ)| |(36000000 : ℚ) + 70000000| = 106000000 from by norm_num]
      norm_num
    · norm_num

/-! ### Claim C7: cross-field repair pass -/

/-- C7: on a record with equity 30,000,000, loan 70,000,000 and unset
(zero) total capital need, total investment and collateral value, the
repair pass sets all three to 100,000,000, in its fixed order. -/
theorem repair_pass_spec (d : LoanApplication)
    (h1 : d.von_doi_ung = 30000000) (h2 : d.so_tien_vay = 70000000)
    (h3 : d.tong_nhu_cau_von = 0) (h4 : d.tong_von_dau_tu = 0)
    (h5 : d.gia_tri_tsdb = 0) :
    (repairPass d).tong_nhu_cau_von = 100000000 ∧
      (repairPass d).tong_von_dau_tu = 100000000 ∧
      (repairPass d).gia_tri_tsdb = 100000000 := by
  have hpos : 0 < d.von_doi_ung + d.so_tien_vay := by
    rw [h1, h2]
    norm_num
  have hsum : d.von_doi_ung + d.so_tien_vay = 100000000 := by
    rw [h1, h2]
    norm_num
  unfold repairPass
  rw [if_pos ⟨h3, hpos⟩]
  dsimp only
  rw [if_pos h4]
  dsimp only
  rw [if_pos ⟨h5, hpos⟩]
  exact ⟨hsum, hsum, hsum⟩

/-- Concrete record for the C7 witness: defaults with equity 30,000,000
and loan 70,000,000. -/
def repairWitnessApp : LoanApplication :=
  { FIELD_DEFAULTS with von_doi_ung := 30000000, so_tien_vay := 70000000 }

/-- C7 witness at `repairWitnessApp`. -/
theorem repair_pass_spec_witness :
    (repairPass repairWitnessApp).tong_nhu_cau_von = 100000000 ∧
      (repairPass repairWitnessApp).tong_von_dau_tu = 100000000 ∧
      (repairPass repairWitnessApp).gia_tri_tsdb = 100000000 :=
  repair_pass_spec repairWitnessApp rfl rfl rfl rfl rfl

/-! ### Claim C6: all-defaults record when nothing matches -/

lemma assignFields_noMatch :
    assignFields MatchResults.noMatch = { FIELD_DEFAULTS with thu_nhap_thang := 0 + 0 } := by
  dsimp only [assignFields, MatchResults.noMatch]
  rw [if_neg (by norm_num : ¬(0 : ℚ) < 0)]

lemma repairPass_defaults : repairPass FIELD_DEFAULTS = FIELD_DEFAULTS := by
  have c1 : ¬(FIELD_DEFAULTS.tong_nhu_cau_von = 0 ∧
      0 < FIELD_DEFAULTS.von_doi_ung + FIELD_DEFAULTS.so_tien_vay) := by
    intro hc
    exact absurd hc.2 (by norm_num [FIELD_DEFAULTS])
  have c3 : ¬(FIELD_DEFAULTS.gia_tri_tsdb = 0 ∧ 0 < FIELD_DEFAULTS.tong_nhu_cau_von) := by
    intro hc
    exact absurd hc.2 (by norm_num [FIELD_DEFAULTS])
  simp only [repairPass]
  rw [if_neg c1]
  rw [if_pos (show FIELD_DEFAULTS.tong_von_dau_tu = 0 from rfl)]
  dsimp only
  rw [if_neg c3]
  rfl

lemma applyExtraction_noMatch : applyExtraction MatchResults.noMatch = FIELD_DEFAULTS := by
  unfold applyExtraction
  rw [assignFields_noMatch, show (0 : ℚ) + 0 = 0 from by norm_num]
  exact repairPass_defaults

/-- C6 counterexample: when no rule matches, the returned record does
not have every numeric field zero and every text field empty: the
annual rate defaults to 10.0, the term to 12 months, and the repayment
period to the literal "Tháng". -/
theorem extract_no_match_nonzero_defaults :
    (applyExtraction MatchResults.noMatch).lai_suat_nam ≠ 0 ∧
      (applyExtraction MatchResults.noMatch).thoi_gian_vay_thang ≠ 0 ∧
      (applyExtraction MatchResults.noMatch).ky_han_tra ≠ "" := by
  rw [applyExtraction_noMatch]
  refine ⟨?_, ?_, ?_⟩
  · show (10 : ℚ) ≠ 0
    norm_num
  · show (12 : ℤ) ≠ 0
    norm_num
  · show "Tháng" ≠ ""
    decide

/-- C6 amended: when no extraction rule matches, the record equals
`FIELD_DEFAULTS`: every monetary field and the income are zero and the
identity/purpose text fields are empty, but the annual rate defaults to
10.0, the term to 12 months, and the repayment period to "Tháng". -/
theorem extract_no_match_gives_defaults (m : MatchResults)
    (h : m = MatchResults.noMatch) :
    applyExtraction m = FIELD_DEFAULTS ∧
      FIELD_DEFAULTS.tong_nhu_cau_von = 0 ∧ FIELD_DEFAULTS.von_doi_ung = 0 ∧
      FIELD_DEFAULTS.so_tien_vay = 0 ∧ FIELD_DEFAULTS.thu_nhap_thang = 0 ∧
      FIELD_DEFAULTS.gia_tri_tsdb = 0 ∧ FIELD_DEFAULTS.tong_no_hien_tai = 0 ∧
      FIELD_DEFAULTS.loi_nhuan_rong_nam = 0 ∧ FIELD_DEFAULTS.tong_von_dau_tu = 0 ∧
      FIELD_DEFAULTS.ten_khach_hang = "" ∧ FIELD_DEFAULTS.cccd = "" ∧
      FIELD_DEFAULTS.noi_cu_tru = "" ∧ FIELD_DEFAULTS.so_dien_thoai = "" ∧
      FIELD_DEFAULTS.muc_dich_vay = "" ∧ FIELD_DEFAULTS.lai_suat_nam = 10 ∧
      FIELD_DEFAULTS.thoi_gian_vay_thang = 12 ∧ FIELD_DEFAULTS.ky_han_tra = "Tháng" := by
  subst h
  exact ⟨applyExtraction_noMatch, rfl, rfl, rfl, rfl, rfl, rfl, rfl, rfl, rfl, rfl, rfl,
    rfl, rfl, rfl, rfl, rfl⟩

/-- C6 amended witness at the all-`none` match results. -/
theorem extract_no_match_gives_defaults_witness :
    applyExtraction MatchResults.noMatch = FIELD_DEFAULTS ∧
      FIELD_DEFAULTS.tong_nhu_cau_von = 0 ∧ FIELD_DEFAULTS.von_doi_ung = 0 ∧
      FIELD_DEFAULTS.so_tien_vay = 0 ∧ FIELD_DEFAULTS.thu_nhap_thang = 0 ∧
      FIELD_DEFAULTS.gia_tri_tsdb = 0 ∧ FIELD_DEFAULTS.tong_no_hien_tai = 0 ∧
      FIELD_DEFAULTS.loi_nhuan_rong_nam = 0 ∧ FIELD_DEFAULTS.tong_von_dau_tu = 0 ∧
      FIELD_DEFAULTS.ten_khach_hang = "" ∧ FIELD_DEFAULTS.cccd = "" ∧
      FIELD_DEFAULTS.noi_cu_tru = "" ∧ FIELD_DEFAULTS.so_dien_thoai = "" ∧
      FIELD_DEFAULTS.muc_dich_vay = "" ∧ FIELD_DEFAULTS.lai_suat_nam = 10 ∧
      FIELD_DEFAULTS.thoi_gian_vay_thang = 12 ∧ FIELD_DEFAULTS.ky_han_tra = "Tháng" :=
  extract_no_match_gives_defaults MatchResults.noMatch rfl

/-! ### Claim C1: extraction totality -/

/-- C1 counterexample: with the docx machinery available and bytes on
which the external `Document` constructor raises (as it does on empty
or corrupt bytes), `extract_from_docx` propagates the exception instead
of returning a record. -/
theorem extract_from_docx_corrupt_raises :
    extract_from_docx (some failingDocxReader) (fun _ => MatchResults.noMatch) [] =
      Except.error () := rfl

/-- C1 amended: `extract_from_docx` returns the fully populated default
record whenever the docx machinery is unavailable, and a fully
populated extracted record whenever the external `Document` constructor
succeeds; it fails only when that external constructor raises, and then
the exception propagates to the caller uncaught. -/
theorem extract_from_docx_total_amended
    (document : Option (List ℕ → Except Unit (List String)))
    (matcher : String → MatchResults) (file_bytes : List ℕ) :
    (document = none →
        extract_from_docx document matcher file_bytes = Except.ok FIELD_DEFAULTS) ∧
      (∀ reader paras, document = some reader → reader file_bytes = Except.ok paras →
        extract_from_docx document matcher file_bytes =
          Except.ok (applyExtraction (matcher (normalizeParagraphs paras)))) ∧
      (∀ reader, document = some reader →
        exceptIsOk (extract_from_docx document matcher file_bytes) = false →
        ∃ e, reader file_bytes = Except.error e) := by
  refine ⟨?_, ?_, ?_⟩
  · intro h
    subst h
    rfl
  · intro reader paras h1 h2
    subst h1
    show (match reader file_bytes with
      | Except.error e => Except.error e
      | Except.ok paras => Except.ok (applyExtraction (matcher (normalizeParagraphs paras)))) =
      Except.ok (applyExtraction (matcher (normalizeParagraphs paras)))
    rw [h2]
  · intro reader h1 h2
    subst h1
    cases hr : reader file_bytes with
    | error e => exact ⟨e, rfl⟩
    | ok paras =>
      exfalso
      have he : extract_from_docx (some reader) matcher file_bytes =
          Except.ok (applyExtraction (matcher (normalizeParagraphs paras))) := by
        show (match reader file_bytes with
          | Except.error e => Except.error e
          | Except.ok paras =>
            Except.ok (applyExtraction (matcher (normalizeParagraphs paras)))) = _
        rw [hr]
      rw [he] at h2
      exact absurd h2 (by simp [exceptIsOk])

/-- C1 amended witness: with the machinery unavailable, any input gives
the default record without raising. -/
theorem extract_from_docx_total_amended_witness :
    extract_from_docx none (fun _ => MatchResults.noMatch) [] = Except.ok FIELD_DEFAULTS :=
  (extract_from_docx_total_amended none (fun _ => MatchResults.noMatch) []).1 rfl

/-! ### Claim C9: locale parsers -/

/-- A string (as a character list) containing no decimal digit; such an
input is unparsable for both numeric parsers. -/
abbrev noDigit (l : List Char) : Prop := ∀ c ∈ l, c.isDigit = false

lemma noDigit_append {a b : List Char} (ha : noDigit a) (hb : noDigit b) :
    noDigit (a ++ b) := by
  intro c hc
  rcases List.mem_append.mp hc with h | h
  · exact ha c h
  · exact hb c h

lemma noDigit_pyReplaceAux (pat repl : List Char) (hrepl : noDigit repl) :
    ∀ fuel s, noDigit s → noDigit (pyReplaceAux pat repl fuel s) := by
  intro fuel
  induction fuel with
  | zero =>
    intro s hs
    exact hs
  | succ fuel ih =>
    intro s hs
    cases s with
    | nil =>
      intro c hc
      simp [pyReplaceAux] at hc
    | cons a rest =>
      have hrest : noDigit rest := fun c hc => hs c (List.mem_cons_of_mem a hc)
      rw [pyReplaceAux]
      split_ifs with hcond
      · exact noDigit_append hrepl
          (ih _ (fun c hc => hs c (List.drop_subset _ _ hc)))
      · intro c hc
        rcases List.mem_cons.mp hc with h | h
        · exact h ▸ hs a (List.mem_cons_self a rest)
        · exact ih rest hrest c h

lemma noDigit_pyReplace (pat repl s : List Char) (hrepl : noDigit repl)
    (hs : noDigit s) : noDigit (pyReplace pat repl s) :=
  noDigit_pyReplaceAux pat repl hrepl s.length s hs

lemma noDigit_stripSeparators {cs : List Char} (h : noDigit cs) :
    noDigit (stripSeparators cs) := by
  unfold stripSeparators
  split_ifs with h1 h2
  · exact noDigit_pyReplace _ _ _ (by decide) (noDigit_pyReplace _ _ _ (by decide) h)
  · exact noDigit_pyReplace _ _ _ (by decide) (noDigit_pyReplace _ _ _ (by decide) h)
  · exact noDigit_pyReplace _ _ _ (by decide) h

lemma noDigit_stripCurrency {cs : List Char} (h : noDigit cs) :
    noDigit (stripCurrency cs) := by
  unfold stripCurrency
  exact noDigit_pyReplace _ _ _ (by decide) (noDigit_pyReplace _ _ _ (by decide)
    (noDigit_pyReplace _ _ _ (by decide) (noDigit_pyReplace _ _ _ (by decide)
      (noDigit_pyReplace _ _ _ (by decide) h))))

lemma noDigit_sanitizeNumeric {cs : List Char} (h : noDigit cs) :
    noDigit (sanitizeNumeric cs) := by
  intro c hc
  exact noDigit_stripCurrency (noDigit_stripSeparators h) c (List.mem_of_mem_filter hc)

lemma takeWhile_isDigit_eq_nil {l : List Char} (h : noDigit l) :
    l.takeWhile Char.isDigit = [] := by
  cases l with
  | nil => rfl
  | cons a rest => simp [List.takeWhile_cons, h a (List.mem_cons_self a rest)]

lemma dropWhile_isDigit_eq_self {l : List Char} (h : noDigit l) :
    l.dropWhile Char.isDigit = l := by
  cases l with
  | nil => rfl
  | cons a rest => simp [List.dropWhile_cons, h a (List.mem_cons_self a rest)]

lemma pyFloatAbs_noDigit {t : List Char} (h : noDigit t) : pyFloatAbs t = none := by
  simp only [pyFloatAbs]
  rw [takeWhile_isDigit_eq_nil h, dropWhile_isDigit_eq_self h]
  split
  · rfl
  · rename_i t3
    have h3 : noDigit t3 := fun c hc => h c (List.mem_cons_of_mem '.' hc)
    rw [takeWhile_isDigit_eq_nil h3, dropWhile_isDigit_eq_self h3]
    cases t3 <;> rfl
  · rfl

lemma pyFloat_noDigit {s : List Char} (h : noDigit s) : pyFloat s = none := by
  unfold pyFloat
  split_ifs with hh
  · have ht : noDigit s.tail := by
      cases s with
      | nil => intro c hc; simp at hc
      | cons a rest => exact fun c hc => h c (List.mem_cons_of_mem a hc)
    rw [pyFloatAbs_noDigit ht]
    rfl
  · exact pyFloatAbs_noDigit h

lemma firstNumToken_noDigit : ∀ l : List Char, noDigit l → firstNumToken l = none := by
  intro l
  induction l with
  | nil => intro _; rfl
  | cons a rest ih =>
    intro h
    rw [firstNumToken, h a (List.mem_cons_self a rest)]
    simp only [Bool.false_eq_true, if_false]
    exact ih (fun c hc => h c (List.mem_cons_of_mem a hc))

lemma vnd_to_float_noDigit (s : String) (h : ∀ c ∈ s.data, c.isDigit = false) :
    vnd_to_float s = 0 := by
  have h1 : noDigit (sanitizeNumeric s.data) := noDigit_sanitizeNumeric h
  simp only [vnd_to_float]
  split_ifs with hempty
  · rfl
  · rw [pyFloat_noDigit h1]
    rfl

lemma percent_to_float_noDigit (s : String) (h : ∀ c ∈ s.data, c.isDigit = false) :
    percent_to_float s = 0 := by
  unfold percent_to_float
  rw [firstNumToken_noDigit _ (noDigit_pyReplace _ _ _ (by decide) h)]
  rfl

/-- C9: the currency parser maps "1.234.567" to 1234567 and
"1.234.567,89" to 1234567.89; the percent parser maps "8,5" and "8.5"
to 8.5; and every empty or digit-free (hence unparsable) input yields 0
from both parsers, which are total functions. -/
theorem locale_parsers_spec :
    vnd_to_float "1.234.567" = 1234567 ∧
      vnd_to_float "1.234.567,89" = 123456789 / 100 ∧
      percent_to_float "8,5" = 17 / 2 ∧
      percent_to_float "8.5" = 17 / 2 ∧
      vnd_to_float "" = 0 ∧
      percent_to_float "" = 0 ∧
      (∀ s : String, (∀ c ∈ s.data, c.isDigit = false) →
        vnd_to_float s = 0 ∧ percent_to_float s = 0) := by
  refine ⟨by decide, ?_, ?_, ?_, by decide, by decide, ?_⟩
  · have h0 : vnd_to_float "1.234.567,89" =
        (digitsToNat ['1', '2', '3', '4', '5', '6', '7'] : ℚ) +
          (digitsToNat ['8', '9'] : ℚ) / 10 ^ (['8', '9'] : List Char).length := rfl
    rw [h0, show digitsToNat ['1', '2', '3', '4', '5', '6', '7'] = 1234567 from by decide,
      show digitsToNat ['8', '9'] = 89 from by decide]
    norm_num
  · have h0 : percent_to_float "8,5" =
        (digitsToNat ['8'] : ℚ) + (digitsToNat ['5'] : ℚ) / 10 ^ (['5'] : List Char).length :=
      rfl
    rw [h0, show digitsToNat ['8'] = 8 from by decide, show digitsToNat ['5'] = 5 from by decide]
    norm_num
  · have h0 : percent_to_float "8.5" =
        (digitsToNat ['8'] : ℚ) + (digitsToNat ['5'] : ℚ) / 10 ^ (['5'] : List Char).length :=
      rfl
    rw [h0, show digitsToNat ['8'] = 8 from by decide, show digitsToNat ['5'] = 5 from by decide]
    norm_num
  · intro s h
    exact ⟨vnd_to_float_noDigit s h, percent_to_float_noDigit s h⟩

/-- C9 witness: a digit-free input returns 0 from both parsers. -/
theorem locale_parsers_spec_witness :
    vnd_to_float "đồng" = 0 ∧ percent_to_float "đồng" = 0 :=
  locale_parsers_spec.2.2.2.2.2.2 "đồng" (by decide)

/-- C8 witness: the two concrete tolerance cases. -/
theorem plan_consistency_spec_witness :
    (compute_metrics planClose).Phuong_an_hop_ly = true ∧
      (compute_metrics planFar).Phuong_an_hop_ly = false :=
  ⟨plan_consistency_spec.2.1, plan_consistency_spec.2.2⟩
